import Mathlib

/-!
Verification development for the trend query engine repository.

The JavaScript sources are shallowly embedded as executable Lean
definitions: JS numbers become `ℚ` (the claims under study only involve
values on which double-precision arithmetic is exact after the service's
final rounding), fallible code returns `Except`, and the stateful
concurrency gate becomes an explicit state machine.  Each definition is
translated from the corresponding source function; deviations from the
natural-language specification are established as theorems below.
-/

deriving instance DecidableEq for Except

namespace TrendsSpec

/-- Substring test used to model JavaScript `String.prototype.includes`:
`substrAt needle hay` checks that `needle` is an initial segment of `hay`. -/
def substrAt : List Char → List Char → Bool
  | [], _ => true
  | _ :: _, [] => false
  | c :: cs, d :: ds => c = d && substrAt cs ds

/-- `containsSub needle hay` checks that `needle` occurs somewhere in `hay`. -/
def containsSub (needle : List Char) : List Char → Bool
  | [] => substrAt needle []
  | d :: ds => substrAt needle (d :: ds) || containsSub needle ds

/-- Model of JavaScript `hay.includes(needle)`. -/
def strContains (hay needle : String) : Bool :=
  containsSub needle.data hay.data

/-- One datum of the value-over-time series (`{date, value}` objects). -/
structure SeriesPoint where
  date : String
  value : ℚ
deriving DecidableEq, Repr

/-- One datum of the cross-country comparison (`{country, value}` objects). -/
structure CountryPoint where
  country : String
  value : ℚ
deriving DecidableEq, Repr

namespace Scoring

/-- `average` from `src/utils/normalize.js`: 0 on the empty list, else `sum / length`. -/
def average (values : List ℚ) : ℚ :=
  if values.length = 0 then 0 else values.sum / values.length

/-- `max` from `src/utils/normalize.js` (renamed: `max` collides with the prelude):
0 on the empty list, else `Math.max(...values)`. -/
def maxVal (values : List ℚ) : ℚ :=
  match values with
  | [] => 0
  | v :: vs => vs.foldl max v

/-- `clamp` from `src/utils/normalize.js`: `Math.max(min, Math.min(max, value))`. -/
def clamp (value mn mx : ℚ) : ℚ :=
  max mn (min mx value)

/-- JavaScript `values.slice(-n)`: the last `n` elements (the whole list when shorter). -/
def sliceLast (n : ℕ) (values : List ℚ) : List ℚ :=
  values.drop (values.length - n)

/-- `ScoringService._calculateGrowth7vs30`: `avg(last 7) / avg(last 30)`,
neutral 1.0 when a window is empty or the 30-window average is not positive. -/
def calculateGrowth7vs30 (values : List ℚ) : ℚ :=
  let last7 := sliceLast 7 values
  let last30 := sliceLast 30 values
  if last7.length = 0 ∨ last30.length = 0 then 1
  else
    let avg7 := average last7
    let avg30 := average last30
    if avg30 > 0 then avg7 / avg30 else 1

/-- The accumulation loop of `_calculateSlope14d`: running sums of
`(x−meanX)(y−meanY)` and `(x−meanX)²` over the index/value pairs. -/
def regressionSums (meanX meanY : ℚ) (pairs : List (ℚ × ℚ)) : ℚ × ℚ :=
  pairs.foldl
    (fun acc p => (acc.1 + (p.1 - meanX) * (p.2 - meanY), acc.2 + (p.1 - meanX) * (p.1 - meanX)))
    (0, 0)

/-- `ScoringService._calculateSlope14d`: least-squares slope of the last 14
values against indices `0..n−1`, divided by the window mean when positive. -/
def calculateSlope14d (values : List ℚ) : ℚ :=
  let last14 := sliceLast 14 values
  if last14.length < 2 then 0
  else
    let n := last14.length
    let x := (List.range n).map (fun i => (i : ℚ))
    let meanX := average x
    let meanY := average last14
    let sums := regressionSums meanX meanY (x.zip last14)
    if sums.2 = 0 then 0
    else
      let slope := sums.1 / sums.2
      if meanY > 0 then slope / meanY else slope

/-- `ScoringService._calculateRecentPeak30d`: `max(last 30 values) / 100`, 0 when empty. -/
def calculateRecentPeak30d (values : List ℚ) : ℚ :=
  let last30 := sliceLast 30 values
  if last30.length = 0 then 0 else maxVal last30 / 100

/-- The three raw signals computed by `ScoringService.calculateScore`. -/
structure Signals where
  growth_7_vs_30 : ℚ
  slope_14d : ℚ
  recent_peak_30d : ℚ
deriving DecidableEq, Repr

/-- `ScoringService._calculateFinalScore`: normalize the three signals with the
fixed anchors and combine with weights 0.5 / 0.3 / 0.2, scaled to 0–100. -/
def calculateFinalScore (signals : Signals) : ℚ :=
  let G := clamp ((signals.growth_7_vs_30 - 0.7) / (1.7 - 0.7)) 0 1
  let S := clamp ((signals.slope_14d + 0.5) / 1.0) 0 1
  let P := signals.recent_peak_30d
  let score := 0.5 * G + 0.3 * S + 0.2 * P
  clamp score 0 1 * 100

/-- Model of JavaScript `x.toFixed(0)` interpolation: round to the nearest integer
and print it (the scoring service only applies this to values in [0, 100]). -/
def ratFixed0 (q : ℚ) : String :=
  toString (round q : ℤ)

/-- Model of `Math.abs(((g − 1) · 100).toFixed(1))` rendered as a JS number:
round to one decimal, take the absolute value, and print without a trailing `.0`. -/
def jsAbsFixed1 (q : ℚ) : String :=
  let t : ℤ := round (q * 10)
  let n : ℕ := t.natAbs
  if n % 10 = 0 then toString (n / 10)
  else toString (n / 10) ++ "." ++ toString (n % 10)

/-- `ScoringService._generateExplanations`: the four Spanish explanation lines. -/
def generateExplanations (signals : Signals) (keyword region : String) : List String :=
  let growthPercent := jsAbsFixed1 ((signals.growth_7_vs_30 - 1) * 100)
  let growthLine :=
    if signals.growth_7_vs_30 > 1.1 then
      "El interés en los últimos 7 días creció " ++ growthPercent ++ "% vs los últimos 30 días."
    else if signals.growth_7_vs_30 < 0.9 then
      "El interés en los últimos 7 días cayó " ++ growthPercent ++ "% vs los últimos 30 días."
    else
      "El interés en los últimos 7 días se mantiene estable respecto a los últimos 30 días."
  let slopeLine :=
    if signals.slope_14d > 0.01 then
      "La tendencia de los últimos 14 días es positiva (creciente)."
    else if signals.slope_14d < -0.01 then
      "La tendencia de los últimos 14 días es negativa (decreciente)."
    else
      "La tendencia de los últimos 14 días es plana (sin cambios significativos)."
  let peakLine :=
    if signals.recent_peak_30d > 0.8 then
      "El interés reciente alcanzó " ++ ratFixed0 (signals.recent_peak_30d * 100) ++ "% del máximo posible."
    else if signals.recent_peak_30d > 0.5 then
      "El interés está en niveles moderados (" ++ ratFixed0 (signals.recent_peak_30d * 100) ++ "% del máximo)."
    else
      "El interés está en niveles bajos (" ++ ratFixed0 (signals.recent_peak_30d * 100) ++ "% del máximo)."
  [growthLine, slopeLine, peakLine, "Los datos corresponden a la región " ++ region ++ "."]

/-- Model of `parseFloat(x.toFixed(digits))`: round to `digits` decimal places. -/
def roundTo (digits : ℕ) (q : ℚ) : ℚ :=
  ((round (q * 10 ^ digits) : ℤ) : ℚ) / (10 ^ digits : ℚ)

/-- The value returned by `ScoringService.calculateScore`. -/
structure ScoreResult where
  trendScore : ℚ
  signals : Signals
  explain : List String
deriving DecidableEq, Repr

/-- `ScoringService.calculateScore`: rejects a null/empty series, computes the
three signals, the final score, and the explanations, rounding the published
numbers to 2/2/4/2 decimal places. -/
def calculateScore (timeSeries : Option (List SeriesPoint)) (keyword region : String) :
    Except String ScoreResult :=
  match timeSeries with
  | none => .error "Time series data is empty"
  | some ts =>
    if ts.length = 0 then .error "Time series data is empty"
    else
      let values := ts.map (fun point => point.value)
      let signals : Signals :=
        ⟨calculateGrowth7vs30 values, calculateSlope14d values, calculateRecentPeak30d values⟩
      let trendScore := calculateFinalScore signals
      let explain := generateExplanations signals keyword region
      .ok ⟨roundTo 2 trendScore,
           ⟨roundTo 2 signals.growth_7_vs_30, roundTo 4 signals.slope_14d,
            roundTo 2 signals.recent_peak_30d⟩,
           explain⟩

end Scoring

namespace Retry

/-- Blocked-response detection from `GoogleTrendsConnector._fetchWithRetry`:
the error message contains one of the four anti-bot signatures. -/
def isBlocked (msg : String) : Bool :=
  strContains msg "Unexpected token" || strContains msg "is not valid JSON" ||
    strContains msg "html" || strContains msg "DOCTYPE"

/-- Observable outcome of one `_fetchWithRetry` run: the returned/thrown value,
how many times the thunk was invoked, and the backoff delays slept between
attempts, in order. -/
structure RetryRun (α : Type) where
  result : Except String α
  calls : ℕ
  delays : List ℕ
deriving Repr

/-- The retry loop of `_fetchWithRetry`.  The thunk is modelled as a function
from the (1-based) attempt number to that invocation's outcome.  `fuel`
counts the attempts still allowed (`attempt + fuel = maxR + 1` at every call).
With `maxR = 0` the JS loop body never runs and the final `throw` dereferences
an undefined `lastError`; all theorems below therefore assume `1 ≤ maxR`. -/
def retryGo {α : Type} (f : ℕ → Except String α) (maxR base : ℕ) :
    ℕ → ℕ → String → RetryRun α
  | _attempt, 0, last =>
    ⟨.error ("Failed after " ++ toString maxR ++ " attempts: " ++ last), 0, []⟩
  | attempt, fuel + 1, _last =>
    match f attempt with
    | .ok v => ⟨.ok v, 1, []⟩
    | .error msg =>
      if fuel = 0 then
        ⟨.error ("Failed after " ++ toString maxR ++ " attempts: " ++ msg), 1, []⟩
      else
        let d := base * 2 ^ (attempt - 1) + (if isBlocked msg then 3000 else 0)
        let rest := retryGo f maxR base (attempt + 1) fuel msg
        ⟨rest.result, rest.calls + 1, d :: rest.delays⟩

/-- `GoogleTrendsConnector._fetchWithRetry fn` with `maxRetries = maxR` and
`retryDelay = base` (defaults 3 and 5000 ms). -/
def fetchWithRetry {α : Type} (f : ℕ → Except String α) (maxR base : ℕ) : RetryRun α :=
  retryGo f maxR base 1 maxR ""

/-- The extra delay contributed by attempt `j`: 3000 ms when its failure is
classified as blocked, otherwise 0 (successful attempts sleep no backoff). -/
def failPenalty {α : Type} (f : ℕ → Except String α) (j : ℕ) : ℕ :=
  match f j with
  | .error m => if isBlocked m then 3000 else 0
  | .ok _ => 0

end Retry

namespace Gate

/-- State of the connector's single-permit lock plus ghost history fields.
`held` is the truthiness of `this.requestLock`, `queue` is `this.lockQueue`
(waiter ids in arrival order).  `holders` counts callers currently inside the
gated region, and `arrived` / `admitted` record, in order, every caller that
ever queued up resp. was admitted; these three are instrumentation only and
are never read by the transition function's branching. -/
structure GateState where
  held : Bool
  queue : List ℕ
  holders : ℕ
  arrived : List ℕ
  admitted : List ℕ
deriving DecidableEq, Repr

/-- The initial lock state (`requestLock = null`, empty queue). -/
def initState : GateState :=
  ⟨false, [], 0, [], []⟩

/-- Events driving the gate: a caller `i` reaching `_acquireLock`, or the
current holder running `_releaseLock`. -/
inductive GateEvent where
  | arrive (i : ℕ)
  | release
deriving DecidableEq, Repr

/-- One step of `_acquireLock` / `_releaseLock`.  Arrival with a free lock
admits immediately; otherwise the caller is pushed on the queue.  Release
shifts the longest waiter off the queue and hands it the permit (leaving
`requestLock` untouched, as the source does), or clears the lock when nobody
waits.  A release on an unheld lock takes the same empty-queue branch: it
merely re-clears `requestLock` and returns — the source contains no check and
no throw. -/
def gateStep (s : GateState) : GateEvent → GateState
  | .arrive i =>
    if s.held then
      { s with queue := s.queue ++ [i], arrived := s.arrived ++ [i] }
    else
      { s with held := true, holders := s.holders + 1,
               arrived := s.arrived ++ [i], admitted := s.admitted ++ [i] }
  | .release =>
    match s.queue with
    | next :: rest =>
      { s with queue := rest, admitted := s.admitted ++ [next] }
    | [] =>
      { s with held := false, holders := s.holders - 1 }

/-- Run a sequence of gate events from the initial state. -/
def gateRun (events : List GateEvent) : GateState :=
  events.foldl gateStep initState

/-- Gate invariant: at most one holder, `requestLock` truthy exactly when the
permit is held, nobody queues behind a free lock, and the admission history is
a prefix of the arrival history with the queue as the remainder (FIFO). -/
def GateInv (s : GateState) : Prop :=
  s.holders ≤ 1 ∧ (s.held = true ↔ s.holders = 1) ∧
    (s.held = false → s.queue = []) ∧ s.arrived = s.admitted ++ s.queue

end Gate

namespace Connector

/-- Lock-relevant operations performed by `fetchComplete`, in program order. -/
inductive LockOp where
  | acquire
  | release
  | delayMs (ms : ℕ)
deriving DecidableEq, Repr

/-- Connector configuration (`maxRetries`, `retryDelay`, `requestDelay`). -/
structure FetchCfg where
  maxRetries : ℕ
  retryDelay : ℕ
  requestDelay : ℕ
deriving DecidableEq, Repr

/-- The value produced by `fetchComplete`.  The test-mode early return carries
no `source` / `fetchedAt` fields, hence the `Option`s. -/
structure TrendsData where
  timeSeries : List SeriesPoint
  byCountry : List CountryPoint
  source : Option String
  fetchedAt : Option String
deriving DecidableEq, Repr

/-- One entry of the provider's `geoMapData` array (`{geoCode, value}` with
`value` an array of numbers). -/
structure GeoEntry where
  geoCode : String
  value : List ℚ
deriving DecidableEq, Repr

/-- One entry of the provider's `timelineData` array (`{time, value}`). -/
structure TimelinePoint where
  time : Int
  value : List ℚ
deriving DecidableEq, Repr

/-- The three supported countries, in the order the source lists them. -/
def targetCountries : List String :=
  ["MX", "CR", "ES"]

/-- Civil date from a count of days since 1970-01-01 (proleptic Gregorian),
mirroring what `new Date(ts * 1000).toISOString()` computes. -/
def civilFromDays (days : Int) : Int × Int × Int :=
  let z := days + 719468
  let era : Int := (if 0 ≤ z then z else z - 146096) / 146097
  let doe : Int := z - era * 146097
  let yoe : Int := (doe - doe / 1460 + doe / 36524 - doe / 146096) / 365
  let y : Int := yoe + era * 400
  let doy : Int := doe - (365 * yoe + yoe / 4 - yoe / 100)
  let mp : Int := (5 * doy + 2) / 153
  let d : Int := doy - (153 * mp + 2) / 5 + 1
  let m : Int := mp + (if mp < 10 then 3 else -9)
  (y + (if m ≤ 2 then 1 else 0), m, d)

/-- Two-digit zero padding for month/day fields. -/
def pad2 (n : Int) : String :=
  if n < 10 then "0" ++ toString n else toString n

/-- `GoogleTrendsConnector._formatTimestamp`: epoch seconds to `YYYY-MM-DD`. -/
def formatTimestamp (ts : Int) : String :=
  let ymd := civilFromDays (ts / 86400)
  toString ymd.1 ++ "-" ++ pad2 ymd.2.1 ++ "-" ++ pad2 ymd.2.2

/-- JavaScript's stable `Array.prototype.sort` with comparator
`(a, b) => b.value - a.value`: descending by value, ties in original order. -/
def sortByValueDesc (l : List CountryPoint) : List CountryPoint :=
  l.mergeSort (fun a b => decide (b.value ≤ a.value))

/-- `GoogleTrendsConnector._fetchTimeSeries`.  The provider interaction is
modelled by its outcome: `.error e` for a thrown request/parse failure,
`.ok none` for a parsed body without `default.timelineData`, and
`.ok (some pts)` for a well-formed body.  Failures propagate unchanged. -/
def fetchTimeSeries (resp : Except String (Option (List TimelinePoint))) :
    Except String (List SeriesPoint) :=
  match resp with
  | .error e => .error e
  | .ok none => .error "Invalid response format from Google Trends"
  | .ok (some timelineData) =>
    .ok (timelineData.map (fun point => ⟨formatTimestamp point.time, point.value.headD 0⟩))

/-- `GoogleTrendsConnector._fetchByCountry`.  The whole body is wrapped in
`try/catch`; a thrown failure is swallowed and replaced by the three target
countries with value 0.  A body without `geoMapData` also yields zeros; a
well-formed body is filtered to the target countries (missing country or
empty value array gives 0) and sorted descending by value. -/
def fetchByCountry (resp : Except String (Option (List GeoEntry))) :
    Except String (List CountryPoint) :=
  match resp with
  | .error _e =>
    .ok (targetCountries.map (fun code => ⟨code, 0⟩))
  | .ok parsed =>
    let results :=
      match parsed with
      | some geoMapData =>
        targetCountries.map (fun code =>
          ⟨code, ((geoMapData.find? (fun d => d.geoCode == code)).map
                    (fun d => d.value.headD 0)).getD 0⟩)
      | none => targetCountries.map (fun code => ⟨code, 0⟩)
    .ok (sortByValueDesc results)

/-- `GoogleTrendsConnector.fetchComplete`, instrumented with the lock
operations it performs.  In test mode it returns mock data before ever
touching the lock.  Otherwise it acquires, runs the series fetch under the
retry envelope, sleeps `requestDelay`, runs the country fetch under the retry
envelope, and releases in a `finally` on every path. -/
def fetchComplete (cfg : FetchCfg) (testMode : Bool) (mock : TrendsData)
    (seriesThunk : ℕ → Except String (List SeriesPoint))
    (countryThunk : ℕ → Except String (List CountryPoint))
    (now : String) : Except String TrendsData × List LockOp :=
  if testMode then
    (.ok mock, [])
  else
    let seriesRun := Retry.fetchWithRetry seriesThunk cfg.maxRetries cfg.retryDelay
    match seriesRun.result with
    | .error e => (.error e, [.acquire, .release])
    | .ok ts =>
      let countryRun := Retry.fetchWithRetry countryThunk cfg.maxRetries cfg.retryDelay
      match countryRun.result with
      | .error e => (.error e, [.acquire, .delayMs cfg.requestDelay, .release])
      | .ok bc =>
        (.ok ⟨ts, bc, some "google_trends", some now⟩,
         [.acquire, .delayMs cfg.requestDelay, .release])

end Connector

namespace Engine

/-- The `cache` sub-object of a response. -/
structure CacheInfo where
  hit : Bool
  ttl_seconds : Int
deriving DecidableEq, Repr

/-- The response payload built by `executeTrendQuery` (and stored in the
cache; a fresh-cache read returns a value of this shape). -/
structure TrendResponse where
  keyword : String
  country : String
  window_days : Int
  baseline_days : Int
  generated_at : String
  sources_used : List String
  trend_score : ℚ
  signals : Scoring.Signals
  series : List SeriesPoint
  by_country : List CountryPoint
  explain : List String
  cache : CacheInfo
  request_id : String
deriving DecidableEq, Repr

/-- Parameters of one trend query. -/
structure QueryParams where
  keyword : String
  country : String
  windowDays : Int
  baselineDays : Int
deriving DecidableEq, Repr

/-- `AppError` from `src/middleware/error.middleware.js` (message + HTTP status). -/
structure AppError where
  message : String
  statusCode : Int
deriving DecidableEq, Repr

/-- Query-store writes performed by the engine, in order. -/
inductive StoreEvent where
  | createRunning
  | markDone
  | markError (msg : String)
deriving DecidableEq, Repr

/-- What the stale cache key holds: `{data, cachedAt}` as written by `cache.set`. -/
structure StaleStored where
  data : TrendResponse
  cachedAt : Int
deriving DecidableEq, Repr

/-- What `cache.getStale` returns on a hit: the stored payload spread together
with its age in seconds and its write time. -/
structure StaleResult where
  payload : TrendResponse
  age : Int
  cachedAt : Int
deriving DecidableEq, Repr

/-- `cache.getStale` from the Redis cache module: `null` on a miss, otherwise
the stored payload annotated with `age = ⌊(now − cachedAt) / 1000⌋` and
`cachedAt`. -/
def cacheGetStale (stored : Option StaleStored) (nowMs : Int) : Option StaleResult :=
  match stored with
  | none => none
  | some entry => some ⟨entry.data, (nowMs - entry.cachedAt) / 1000, entry.cachedAt⟩

/-- The environment `executeTrendQuery` runs against: the fresh-cache read for
the query's fingerprint, the fresh key's remaining TTL, whether the
`create_running` insert succeeds, the connector outcome, what the stale key
holds (read by `cache.getStale`, which the engine may or may not consult),
the current timestamps, and the configured fresh TTL. -/
structure EngineEnv where
  cachedFresh : Option TrendResponse
  freshTTL : Int
  dbCreateOk : Bool
  fetchResult : Except String Connector.TrendsData
  staleStored : Option StaleStored
  nowIso : String
  nowMs : Int
  cacheTtlSeconds : Int
deriving Repr

/-- Observable outcome of `executeTrendQuery`: the returned payload or thrown
`AppError`, the query-store writes, and the fresh-cache write, if any. -/
structure EngineOutcome where
  result : Except AppError TrendResponse
  storeEvents : List StoreEvent
  cacheWrite : Option TrendResponse
deriving Repr

/-- The error translation in `executeTrendQuery`'s catch block: messages
containing "Invalid response" or "No data" become a 404, all else a 500. -/
def appErrorFor (p : QueryParams) (e : String) : AppError :=
  if strContains e "Invalid response" || strContains e "No data" then
    ⟨"No trend data available for keyword \"" ++ p.keyword ++ "\" in country \"" ++
       p.country ++ "\"", 404⟩
  else
    ⟨"Failed to fetch trend data: " ++ e, 500⟩

/-- `TrendEngineService.executeTrendQuery`.  On a fresh-cache hit it returns
the cached payload with only the `cache` sub-object replaced.  On a miss it
creates the RUNNING record, fetches, scores, persists, marks DONE, builds the
response and writes it to the cache; a fetch or scoring failure marks the
record ERROR and throws the translated `AppError` — the stale cache is never
consulted on any path. -/
def executeTrendQuery (env : EngineEnv) (p : QueryParams) (requestId : String) :
    EngineOutcome :=
  match env.cachedFresh with
  | some cachedResult =>
    ⟨.ok { cachedResult with cache := ⟨true, env.freshTTL⟩ }, [], none⟩
  | none =>
    if env.dbCreateOk = false then
      ⟨.error ⟨"Database error while creating query", 500⟩, [], none⟩
    else
      match env.fetchResult with
      | .error e =>
        ⟨.error (appErrorFor p e), [.createRunning, .markError e], none⟩
      | .ok trendsData =>
        match Scoring.calculateScore (some trendsData.timeSeries) p.keyword p.country with
        | .error e =>
          ⟨.error (appErrorFor p e), [.createRunning, .markError e], none⟩
        | .ok scoring =>
          let response : TrendResponse :=
            { keyword := p.keyword
              country := p.country
              window_days := p.windowDays
              baseline_days := p.baselineDays
              generated_at := env.nowIso
              sources_used := ["google_trends"]
              trend_score := scoring.trendScore
              signals := scoring.signals
              series := trendsData.timeSeries
              by_country := trendsData.byCountry
              explain := scoring.explain
              cache := ⟨false, env.cacheTtlSeconds⟩
              request_id := requestId }
          ⟨.ok response, [.createRunning, .markDone], some response⟩

end Engine

namespace Validation

/-- One request body for `POST /v1/trends/query` (zod coerces nothing here:
`window_days` and `baseline_days` must already be integers). -/
structure RequestBody where
  keyword : String
  country : String
  window_days : Int
  baseline_days : Int
deriving DecidableEq, Repr

/-- Model of JavaScript `.toUpperCase()` (zod's `.toUpperCase()` transform),
applied characterwise. -/
def strToUpper (s : String) : String :=
  ⟨s.data.map Char.toUpper⟩

/-- Modelled from the spec: `isCountrySupported` from `src/utils/regionMap.js`
(the country-based revision of that file is absent from the sources; the spec
and the regionMap tests fix the supported set as exactly MX, CR, ES). -/
def isCountrySupported (c : String) : Bool :=
  c == "MX" || c == "CR" || c == "ES"

/-- The `keyword` checks of `trendQuerySchema`: string of length 2–60
(zod runs `.min`/`.max` before the trailing `.trim()` transform). -/
def keywordValid (k : String) : Bool :=
  decide (2 ≤ k.length) && decide (k.length ≤ 60)

/-- The `country` checks of `trendQuerySchema`: exactly two characters,
uppercased before the supported-set refinement. -/
def countryValid (c : String) : Bool :=
  decide (c.length = 2) && isCountrySupported (strToUpper c)

/-- The `window_days` checks: positive integer in {7, 30, 90, 365}. -/
def windowValid (w : Int) : Bool :=
  decide (0 < w) && (w == 7 || w == 30 || w == 90 || w == 365)

/-- The `baseline_days` checks: positive integer, at most 730 — the schema's
own message reads "baseline_days must be at most 730 (2 years)". -/
def baselineValid (b : Int) : Bool :=
  decide (0 < b) && decide (b ≤ 730)

/-- `trendQuerySchema.parse` succeeds exactly when every field check passes
and the final refinement `baseline_days ≥ window_days` holds; there is no
minimum of 30 on `baseline_days` and no check on
`window_days + baseline_days`. -/
def trendQueryAccepts (body : RequestBody) : Bool :=
  keywordValid body.keyword && countryValid body.country &&
    windowValid body.window_days && baselineValid body.baseline_days &&
    decide (body.window_days ≤ body.baseline_days)

/-- Acceptance condition for `baseline_days` as the specification words it:
in [30, 1825], at least `window_days`, and `window_days + baseline_days`
at most 1825.  Stated only to be compared against `trendQueryAccepts`. -/
def specBaselineAccepted (w b : Int) : Bool :=
  decide (30 ≤ b) && decide (b ≤ 1825) && decide (w ≤ b) && decide (w + b ≤ 1825)

end Validation

/-- A concrete cached payload used by the engine theorems below. -/
def samplePayload : Engine.TrendResponse :=
  { keyword := "bitcoin"
    country := "MX"
    window_days := 7
    baseline_days := 365
    generated_at := "2026-01-01T00:00:00.000Z"
    sources_used := ["google_trends"]
    trend_score := 40
    signals := ⟨1, 0, 1/2⟩
    series := [⟨"2025-12-31", 50⟩]
    by_country := [⟨"MX", 80⟩, ⟨"CR", 40⟩, ⟨"ES", 20⟩]
    explain := ["a", "b", "c", "d"]
    cache := ⟨false, 21600⟩
    request_id := "req-original" }

/-- Concrete query parameters matching `samplePayload`. -/
def sampleParams : Engine.QueryParams :=
  ⟨"bitcoin", "MX", 7, 365⟩

/-! ## Theorems

Helper lemmas first, then one theorem per claim (with witnesses and
counterexamples where the claim's status requires them). -/

namespace Scoring

lemma average_replicate (m : ℕ) (c : ℚ) (hm : m ≠ 0) :
    average (List.replicate m c) = c := by
  unfold average
  rw [List.length_replicate, if_neg hm, List.sum_replicate, nsmul_eq_mul]
  exact mul_div_cancel_left₀ c (Nat.cast_ne_zero.mpr hm)

lemma foldl_max_replicate (k : ℕ) (c : ℚ) :
    (List.replicate k c).foldl max c = c := by
  induction k with
  | zero => rfl
  | succ n ih => simpa [List.replicate_succ, List.foldl_cons] using ih

lemma maxVal_replicate (m : ℕ) (c : ℚ) (hm : m ≠ 0) :
    maxVal (List.replicate m c) = c := by
  cases m with
  | zero => exact absurd rfl hm
  | succ n => simp [maxVal, List.replicate_succ, foldl_max_replicate]

lemma sliceLast_replicate (n m : ℕ) (c : ℚ) :
    sliceLast n (List.replicate m c) = List.replicate (min m n) c := by
  rw [sliceLast, List.length_replicate, List.drop_replicate]
  congr 1
  omega

lemma growth_replicate (m : ℕ) (hm : 1 ≤ m) (c : ℚ) :
    calculateGrowth7vs30 (List.replicate m c) = 1 := by
  have h7 : min m 7 ≠ 0 := by omega
  have h30 : min m 30 ≠ 0 := by omega
  simp only [calculateGrowth7vs30, sliceLast_replicate, List.length_replicate]
  rw [if_neg (by omega : ¬(min m 7 = 0 ∨ min m 30 = 0))]
  rw [average_replicate _ _ h7, average_replicate _ _ h30]
  by_cases hc : c > 0
  · rw [if_pos hc, div_self (ne_of_gt hc)]
  · rw [if_neg hc]

lemma regressionSums_fst_const (meanX c : ℚ) :
    ∀ (pairs : List (ℚ × ℚ)) (init : ℚ × ℚ), (∀ p ∈ pairs, p.2 = c) →
      (pairs.foldl
        (fun acc p => (acc.1 + (p.1 - meanX) * (p.2 - c), acc.2 + (p.1 - meanX) * (p.1 - meanX)))
        init).1 = init.1
  | [], _init, _h => rfl
  | p :: rest, init, h => by
    have hp : p.2 = c := h p (List.mem_cons_self p rest)
    have hrest : ∀ q ∈ rest, q.2 = c := fun q hq => h q (List.mem_cons_of_mem p hq)
    rw [List.foldl_cons, regressionSums_fst_const meanX c rest _ hrest]
    simp [hp]

lemma slope_replicate (m : ℕ) (c : ℚ) :
    calculateSlope14d (List.replicate m c) = 0 := by
  simp only [calculateSlope14d, sliceLast_replicate, List.length_replicate]
  by_cases h2 : min m 14 < 2
  · rw [if_pos h2]
  · rw [if_neg h2]
    have hne : min m 14 ≠ 0 := by omega
    simp only [average_replicate _ _ hne]
    have hz : ∀ p ∈ ((List.range (min m 14)).map (fun i => (i : ℚ))).zip
        (List.replicate (min m 14) c), p.2 = c := by
      intro p hp
      rcases p with ⟨a, b⟩
      exact List.eq_of_mem_replicate (List.of_mem_zip hp).2
    have hnum :
        (regressionSums (average ((List.range (min m 14)).map (fun i => (i : ℚ)))) c
          (((List.range (min m 14)).map (fun i => (i : ℚ))).zip
            (List.replicate (min m 14) c))).1 = 0 := by
      unfold regressionSums
      exact regressionSums_fst_const _ c _ (0, 0) hz
    simp only [hnum, zero_div, ite_self]

lemma peak_replicate (m : ℕ) (hm : 1 ≤ m) (c : ℚ) :
    calculateRecentPeak30d (List.replicate m c) = c / 100 := by
  have hne : min m 30 ≠ 0 := by omega
  simp only [calculateRecentPeak30d, sliceLast_replicate, List.length_replicate]
  rw [if_neg hne, maxVal_replicate _ _ hne]

/-- Evaluation of `calculateScore` on a constant series of length `m ≥ 1`:
growth is neutral 1, the regression slope is 0, and the peak is `c / 100`. -/
lemma calcScore_replicate (m : ℕ) (hm : 1 ≤ m) (d : String) (c : ℚ) (k r : String) :
    calculateScore (some (List.replicate m ⟨d, c⟩)) k r =
      .ok ⟨roundTo 2 (calculateFinalScore ⟨1, 0, c / 100⟩),
           ⟨roundTo 2 1, roundTo 4 0, roundTo 2 (c / 100)⟩,
           generateExplanations ⟨1, 0, c / 100⟩ k r⟩ := by
  have hlen : ¬((List.replicate m (⟨d, c⟩ : SeriesPoint)).length = 0) := by
    rw [List.length_replicate]; omega
  simp only [calculateScore, if_neg hlen, List.map_replicate]
  rw [growth_replicate m hm c, slope_replicate m c, peak_replicate m hm c]

lemma finalScore_neutral_zero : calculateFinalScore ⟨1, 0, 0⟩ = 30 := by
  norm_num [calculateFinalScore, clamp, min_def, max_def]

lemma finalScore_neutral_half : calculateFinalScore ⟨1, 0, 1 / 2⟩ = 40 := by
  norm_num [calculateFinalScore, clamp, min_def, max_def]

lemma explanations_neutral_zero (k r : String) :
    generateExplanations ⟨1, 0, 0⟩ k r =
      ["El interés en los últimos 7 días se mantiene estable respecto a los últimos 30 días.",
       "La tendencia de los últimos 14 días es plana (sin cambios significativos).",
       "El interés está en niveles bajos (0% del máximo).",
       "Los datos corresponden a la región " ++ r ++ "."] := by
  have h1 : ¬((1 : ℚ) > 1.1) := by norm_num
  have h2 : ¬((1 : ℚ) < 0.9) := by norm_num
  have h3 : ¬((0 : ℚ) > 0.01) := by norm_num
  have h4 : ¬((0 : ℚ) < -0.01) := by norm_num
  have h5 : ¬((0 : ℚ) > 0.8) := by norm_num
  have h6 : ¬((0 : ℚ) > 0.5) := by norm_num
  have h0 : ((0 : ℚ) * 100) = 0 := by norm_num
  have hr : round (0 : ℚ) = 0 := by norm_num
  simp only [generateExplanations, ratFixed0, h0, hr, if_neg h1, if_neg h2, if_neg h3,
    if_neg h4, if_neg h5, if_neg h6]
  rfl

lemma explanations_neutral_half (k r : String) :
    generateExplanations ⟨1, 0, 1 / 2⟩ k r =
      ["El interés en los últimos 7 días se mantiene estable respecto a los últimos 30 días.",
       "La tendencia de los últimos 14 días es plana (sin cambios significativos).",
       "El interés está en niveles bajos (50% del máximo).",
       "Los datos corresponden a la región " ++ r ++ "."] := by
  have h1 : ¬((1 : ℚ) > 1.1) := by norm_num
  have h2 : ¬((1 : ℚ) < 0.9) := by norm_num
  have h3 : ¬((0 : ℚ) > 0.01) := by norm_num
  have h4 : ¬((0 : ℚ) < -0.01) := by norm_num
  have h5 : ¬((1 / 2 : ℚ) > 0.8) := by norm_num
  have h6 : ¬((1 / 2 : ℚ) > 0.5) := by norm_num
  have h0 : ((1 / 2 : ℚ) * 100) = 50 := by norm_num
  have hr : round (50 : ℚ) = 50 := by norm_num
  simp only [generateExplanations, ratFixed0, h0, hr, if_neg h1, if_neg h2, if_neg h3,
    if_neg h4, if_neg h5, if_neg h6]
  rfl

lemma roundTo_30 : roundTo 2 30 = 30 := by norm_num [roundTo]

lemma roundTo_40 : roundTo 2 40 = 40 := by norm_num [roundTo]

lemma roundTo_one : roundTo 2 1 = 1 := by norm_num [roundTo]

lemma roundTo4_zero : roundTo 4 0 = 0 := by norm_num [roundTo]

lemma roundTo_zero : roundTo 2 0 = 0 := by norm_num [roundTo]

lemma roundTo_half : roundTo 2 (1 / 2) = 1 / 2 := by norm_num [roundTo]

end Scoring

/-- C2 (amended): every all-zero series of length ≥ 1 scores `trend_score = 30`,
not 15 — growth is the neutral 1.0 (so its normalized contribution is 0.3, not
0), the slope-normalized 0 maps to 0.5, and the peak contributes 0; the
published signals are `⟨1, 0, 0⟩` and the explanations report "estable",
"plana", "bajos (0%)" and the region. -/
theorem scoring_all_zero_series (n : ℕ) (hn : 1 ≤ n) (d keyword region : String) :
    Scoring.calculateScore (some (List.replicate n ⟨d, 0⟩)) keyword region =
      .ok ⟨30, ⟨1, 0, 0⟩,
        ["El interés en los últimos 7 días se mantiene estable respecto a los últimos 30 días.",
         "La tendencia de los últimos 14 días es plana (sin cambios significativos).",
         "El interés está en niveles bajos (0% del máximo).",
         "Los datos corresponden a la región " ++ region ++ "."]⟩ := by
  rw [Scoring.calcScore_replicate n hn d 0 keyword region]
  rw [show (0 : ℚ) / 100 = 0 by norm_num]
  rw [Scoring.finalScore_neutral_zero, Scoring.explanations_neutral_zero,
    Scoring.roundTo_30, Scoring.roundTo_one, Scoring.roundTo4_zero, Scoring.roundTo_zero]

/-- C2 witness: the amended theorem applied to the all-zero series of length 3. -/
theorem scoring_all_zero_series_witness :
    1 ≤ 3 ∧
      Scoring.calculateScore (some (List.replicate 3 ⟨"2025-01-01", 0⟩)) "kw" "MX" =
        .ok ⟨30, ⟨1, 0, 0⟩,
          ["El interés en los últimos 7 días se mantiene estable respecto a los últimos 30 días.",
           "La tendencia de los últimos 14 días es plana (sin cambios significativos).",
           "El interés está en niveles bajos (0% del máximo).",
           "Los datos corresponden a la región MX."]⟩ :=
  ⟨by decide, scoring_all_zero_series 3 (by decide) "2025-01-01" "kw" "MX"⟩

/-- C2 counterexample: on the all-zero series of length 30 the computed
`trend_score` is 30, and 30 ≠ 15, refuting the claimed "no signal" value. -/
theorem scoring_all_zero_not_fifteen :
    (Scoring.calculateScore (some (List.replicate 30 ⟨"2025-01-01", 0⟩)) "kw" "MX").map
        (fun res => res.trendScore) = .ok 30 ∧ (30 : ℚ) ≠ 15 := by
  constructor
  · rw [Scoring.calcScore_replicate 30 (by omega) "2025-01-01" 0 "kw" "MX"]
    rw [show (0 : ℚ) / 100 = 0 by norm_num]
    rw [Scoring.finalScore_neutral_zero, Scoring.roundTo_30]
    rfl
  · norm_num

/-- C9 (amended): for 30 values all equal to 50 with keyword "stable" and
country "ES", the scoring function yields growth 1.0, slope 0.0, peak 0.5 and
`trend_score = 40`, and the explanations say "estable", "plana", **"bajos"**
(the peak of exactly 0.5 falls in the low band, not the moderate one, whose
condition is strictly greater than 0.5), and name the region ES. -/
theorem scoring_flat_series :
    Scoring.calculateScore (some (List.replicate 30 ⟨"2025-01-01", 50⟩)) "stable" "ES" =
      .ok ⟨40, ⟨1, 0, 1 / 2⟩,
        ["El interés en los últimos 7 días se mantiene estable respecto a los últimos 30 días.",
         "La tendencia de los últimos 14 días es plana (sin cambios significativos).",
         "El interés está en niveles bajos (50% del máximo).",
         "Los datos corresponden a la región ES."]⟩ := by
  rw [Scoring.calcScore_replicate 30 (by omega) "2025-01-01" 50 "stable" "ES"]
  rw [show (50 : ℚ) / 100 = 1 / 2 by norm_num]
  rw [Scoring.finalScore_neutral_half, Scoring.explanations_neutral_half,
    Scoring.roundTo_40, Scoring.roundTo_one, Scoring.roundTo4_zero, Scoring.roundTo_half]
  rfl

/-- C9 counterexample: on the flat 30×50 series the third explanation is the
"niveles bajos" sentence, not the "niveles moderados" one the claim expects. -/
theorem scoring_flat_series_moderate_refuted :
    (Scoring.calculateScore (some (List.replicate 30 ⟨"2025-01-01", 50⟩)) "stable" "ES").map
        (fun res => res.explain.get? 2) =
      .ok (some "El interés está en niveles bajos (50% del máximo).") ∧
    "El interés está en niveles bajos (50% del máximo)." ≠
      "El interés está en niveles moderados (50% del máximo)." := by
  constructor
  · rw [Scoring.calcScore_replicate 30 (by omega) "2025-01-01" 50 "stable" "ES"]
    rw [show (50 : ℚ) / 100 = 1 / 2 by norm_num]
    rw [Scoring.explanations_neutral_half]
    rfl
  · decide

namespace Retry

lemma failPenalty_le {α : Type} (f : ℕ → Except String α) (j : ℕ) :
    failPenalty f j ≤ 3000 := by
  unfold failPenalty
  cases f j with
  | ok v => exact Nat.zero_le _
  | error m =>
    by_cases hb : isBlocked m
    · simp [hb]
    · simp [hb]

lemma retryGo_calls_pos {α : Type} (f : ℕ → Except String α) (maxR base attempt fuel : ℕ)
    (last : String) (hfuel : 1 ≤ fuel) :
    1 ≤ (retryGo f maxR base attempt fuel last).calls := by
  cases fuel with
  | zero => omega
  | succ fu =>
    simp only [retryGo]
    cases hf : f attempt with
    | ok v => simp
    | error msg =>
      by_cases h0 : fu = 0
      · simp [h0]
      · simp [h0]

lemma retryGo_calls_le {α : Type} (f : ℕ → Except String α) (maxR base : ℕ) :
    ∀ (fuel attempt : ℕ) (last : String),
      (retryGo f maxR base attempt fuel last).calls ≤ fuel
  | 0, _, _ => Nat.le_refl 0
  | fuel + 1, attempt, last => by
    simp only [retryGo]
    cases hf : f attempt with
    | ok v => simp
    | error msg =>
      by_cases h0 : fuel = 0
      · simp [h0]
      · simp only [if_neg h0]
        have ih := retryGo_calls_le f maxR base fuel (attempt + 1) msg
        simpa using ih

lemma retryGo_first_ok {α : Type} (f : ℕ → Except String α) (maxR base : ℕ) :
    ∀ (t fuel attempt : ℕ) (last : String) (v : α),
      t < fuel →
      (∀ j, j < t → ∃ m, f (attempt + j) = .error m) →
      f (attempt + t) = .ok v →
      (retryGo f maxR base attempt fuel last).result = .ok v ∧
        (retryGo f maxR base attempt fuel last).calls = t + 1
  | 0, fuel, attempt, last, v, hlt, _hfail, hok => by
    cases fuel with
    | zero => omega
    | succ fu =>
      rw [Nat.add_zero] at hok
      simp [retryGo, hok]
  | t + 1, fuel, attempt, last, v, hlt, hfail, hok => by
    cases fuel with
    | zero => omega
    | succ fu =>
      obtain ⟨m, hm⟩ := hfail 0 (Nat.succ_pos t)
      rw [Nat.add_zero] at hm
      have h0 : ¬(fu = 0) := by omega
      have ih := retryGo_first_ok f maxR base t fu (attempt + 1) m v (by omega)
        (fun j hj => by
          obtain ⟨m', hm'⟩ := hfail (j + 1) (by omega)
          exact ⟨m', by rw [← hm']; congr 1; omega⟩)
        (by rw [← hok]; congr 1; omega)
      simp only [retryGo, hm, if_neg h0]
      exact ⟨ih.1, by rw [ih.2]⟩

lemma retryGo_all_fail {α : Type} (f : ℕ → Except String α) (maxR base : ℕ) (msgs : ℕ → String) :
    ∀ (fuel attempt : ℕ) (last : String),
      1 ≤ fuel →
      (∀ j, j < fuel → f (attempt + j) = .error (msgs (attempt + j))) →
      (retryGo f maxR base attempt fuel last).result =
          .error ("Failed after " ++ toString maxR ++ " attempts: " ++ msgs (attempt + fuel - 1)) ∧
        (retryGo f maxR base attempt fuel last).calls = fuel
  | 0, _, _, hfuel, _ => by omega
  | fuel + 1, attempt, last, _hfuel, hfail => by
    have hm : f attempt = .error (msgs attempt) := by
      have := hfail 0 (Nat.succ_pos fuel)
      rwa [Nat.add_zero] at this
    by_cases h0 : fuel = 0
    · subst h0
      simp [retryGo, hm]
    · have ih := retryGo_all_fail f maxR base msgs fuel (attempt + 1) (msgs attempt)
        (by omega)
        (fun j hj => by
          have h' : attempt + 1 + j = attempt + (j + 1) := by omega
          rw [h']
          exact hfail (j + 1) (by omega))
      simp only [retryGo, hm, if_neg h0]
      refine ⟨?_, by rw [ih.2]⟩
      rw [ih.1]
      have h' : attempt + 1 + fuel - 1 = attempt + (fuel + 1) - 1 := by omega
      rw [h']

lemma retryGo_delays {α : Type} (f : ℕ → Except String α) (maxR base : ℕ) :
    ∀ (fuel attempt : ℕ) (last : String), 1 ≤ attempt →
      (retryGo f maxR base attempt fuel last).delays =
        (List.range ((retryGo f maxR base attempt fuel last).calls - 1)).map
          (fun i => base * 2 ^ (attempt - 1 + i) + failPenalty f (attempt + i))
  | 0, attempt, last, _h1 => by simp [retryGo]
  | fuel + 1, attempt, last, h1 => by
    cases hf : f attempt with
    | ok v => simp [retryGo, hf]
    | error m =>
      by_cases h0 : fuel = 0
      · simp [retryGo, hf, h0]
      · have hpos := retryGo_calls_pos f maxR base (attempt + 1) fuel m (by omega)
        have ih := retryGo_delays f maxR base fuel (attempt + 1) m (by omega)
        obtain ⟨c, hc⟩ : ∃ c, (retryGo f maxR base (attempt + 1) fuel m).calls = c + 1 :=
          ⟨(retryGo f maxR base (attempt + 1) fuel m).calls - 1, by omega⟩
        simp only [retryGo, hf, if_neg h0]
        rw [ih, hc]
        simp only [Nat.add_sub_cancel]
        rw [List.range_succ_eq_map, List.map_cons, List.map_map]
        congr 1
        · have hpen : failPenalty f attempt = if isBlocked m then 3000 else 0 := by
            unfold failPenalty
            rw [hf]
          simp only [Nat.add_zero]
          rw [hpen]
        · apply List.map_congr_left
          intro i _hi
          simp only [Function.comp_apply, Nat.succ_eq_add_one]
          have e1 : attempt - 1 + (i + 1) = attempt + i := by omega
          have e2 : attempt + (i + 1) = attempt + 1 + i := by omega
          rw [e1, e2]

lemma fetchWithRetry_delays {α : Type} (f : ℕ → Except String α) (maxR base : ℕ) :
    (fetchWithRetry f maxR base).delays =
      (List.range ((fetchWithRetry f maxR base).calls - 1)).map
        (fun i => base * 2 ^ i + failPenalty f (1 + i)) := by
  rw [fetchWithRetry, retryGo_delays f maxR base maxR 1 "" (Nat.le_refl 1)]
  apply List.map_congr_left
  intro i _hi
  norm_num

lemma retryGo_congr_okness {α : Type} (f g : ℕ → Except String α) (maxR base : ℕ)
    (h : ∀ j, (f j).isOk = (g j).isOk) :
    ∀ (fuel attempt : ℕ) (lf lg : String),
      (retryGo f maxR base attempt fuel lf).calls =
          (retryGo g maxR base attempt fuel lg).calls ∧
        (retryGo f maxR base attempt fuel lf).result.isOk =
          (retryGo g maxR base attempt fuel lg).result.isOk
  | 0, attempt, lf, lg => by simp [retryGo, Except.isOk, Except.toBool]
  | fuel + 1, attempt, lf, lg => by
    have hatt := h attempt
    cases hf : f attempt with
    | ok v =>
      cases hg : g attempt with
      | ok w => simp [retryGo, hf, hg, Except.isOk, Except.toBool]
      | error mg => rw [hf, hg] at hatt; simp [Except.isOk, Except.toBool] at hatt
    | error mf =>
      cases hg : g attempt with
      | ok w => rw [hf, hg] at hatt; simp [Except.isOk, Except.toBool] at hatt
      | error mg =>
        by_cases h0 : fuel = 0
        · simp [retryGo, hf, hg, h0, Except.isOk, Except.toBool]
        · have ih := retryGo_congr_okness f g maxR base h fuel (attempt + 1) mf mg
          simp only [retryGo, hf, hg, if_neg h0]
          exact ⟨by rw [ih.1], ih.2⟩

end Retry

/-- C4 (amended): the retry wrapper invokes the thunk at least once and at
most `max_attempts` times, returns the first successful value, and on
exhaustion fails with the composite "Failed after N attempts: last message"
error; the delay before attempt `n+1` is `base_delay · 2^(n−1)` **plus the
3000 ms blocked penalty when that attempt's failure was classified blocked**,
and with `base_delay ≥ 3000` (the default is 5000) the inter-attempt delays
are non-decreasing. -/
theorem retry_envelope_amended {α : Type} (f : ℕ → Except String α) (maxR base : ℕ)
    (hmax : 1 ≤ maxR) (hbase : 3000 ≤ base) :
    (1 ≤ (Retry.fetchWithRetry f maxR base).calls ∧
        (Retry.fetchWithRetry f maxR base).calls ≤ maxR) ∧
      (∀ t v, t < maxR → (∀ j, j < t → ∃ m, f (1 + j) = .error m) → f (1 + t) = .ok v →
        (Retry.fetchWithRetry f maxR base).result = .ok v ∧
          (Retry.fetchWithRetry f maxR base).calls = t + 1) ∧
      (∀ msgs : ℕ → String, (∀ j, j < maxR → f (1 + j) = .error (msgs (1 + j))) →
        (Retry.fetchWithRetry f maxR base).result =
            .error ("Failed after " ++ toString maxR ++ " attempts: " ++ msgs maxR) ∧
          (Retry.fetchWithRetry f maxR base).calls = maxR) ∧
      ((Retry.fetchWithRetry f maxR base).delays =
        (List.range ((Retry.fetchWithRetry f maxR base).calls - 1)).map
          (fun i => base * 2 ^ i + Retry.failPenalty f (1 + i))) ∧
      (Retry.fetchWithRetry f maxR base).delays.Chain' (· ≤ ·) := by
  refine ⟨⟨Retry.retryGo_calls_pos f maxR base 1 maxR "" hmax,
           Retry.retryGo_calls_le f maxR base maxR 1 ""⟩, ?_, ?_, ?_, ?_⟩
  · intro t v ht hfail hok
    exact Retry.retryGo_first_ok f maxR base t maxR 1 "" v ht hfail hok
  · intro msgs hfail
    have h := Retry.retryGo_all_fail f maxR base msgs maxR 1 "" hmax hfail
    simp only [Retry.fetchWithRetry]
    refine ⟨?_, h.2⟩
    rw [h.1]
    have h' : 1 + maxR - 1 = maxR := by omega
    rw [h']
  · exact Retry.fetchWithRetry_delays f maxR base
  · rw [Retry.fetchWithRetry_delays f maxR base]
    cases hn : (Retry.fetchWithRetry f maxR base).calls - 1 with
    | zero => simp
    | succ k =>
      rw [List.chain'_map]
      rw [List.chain'_range_succ]
      intro m _hm
      have hp : Retry.failPenalty f (1 + m) ≤ base :=
        le_trans (Retry.failPenalty_le f (1 + m)) hbase
      have h2 : base ≤ base * 2 ^ m :=
        le_mul_of_one_le_right (Nat.zero_le base) (Nat.one_le_two_pow)
      calc base * 2 ^ m + Retry.failPenalty f (1 + m)
          ≤ base * 2 ^ m + base * 2 ^ m := by
            have := le_trans hp h2
            omega
        _ = base * 2 ^ (m + 1) := by ring
        _ ≤ base * 2 ^ (m + 1) + Retry.failPenalty f (1 + (m + 1)) := Nat.le_add_right _ _

/-- C4 witness: the amended theorem applied to a thunk succeeding immediately
with `max_attempts = 3` and `base_delay = 5000`. -/
theorem retry_envelope_amended_witness :
    (Retry.fetchWithRetry (fun _ => (.ok 0 : Except String ℕ)) 3 5000).result = .ok 0 ∧
      (Retry.fetchWithRetry (fun _ => (.ok 0 : Except String ℕ)) 3 5000).calls = 0 + 1 := by
  have h := retry_envelope_amended (fun _ => (.ok 0 : Except String ℕ)) 3 5000
    (by decide) (by decide)
  exact h.2.1 0 0 (by decide) (fun j hj => absurd hj (Nat.not_lt_zero j)) rfl

/-- C4 counterexample: with the default `base_delay = 5000`, a first attempt
failing with a blocked signature is followed by a delay of 8000 ms, not the
claimed `base_delay · 2^0 = 5000` ms. -/
theorem retry_backoff_counterexample :
    (Retry.fetchWithRetry
        (fun k => if k = 1 then .error "Unexpected token < in JSON at position 0"
                  else (.ok 42 : Except String ℕ)) 3 5000).delays = [8000] ∧
      (8000 : ℕ) ≠ 5000 * 2 ^ 0 := by
  constructor
  · decide
  · decide

/-- C5: a failure is classified blocked exactly when its message contains one
of the four signatures; a blocked failure adds exactly 3000 ms to the backoff
delay before the next attempt (`delays[i] = base · 2^i + penalty(attempt i+1)`),
and blockedness never changes the retry control flow: two thunks failing and
succeeding at the same attempts produce the same number of invocations and the
same success/failure outcome. -/
theorem blocked_detection_confirmed {α : Type} (f : ℕ → Except String α) (maxR base : ℕ) :
    (∀ msg : String, Retry.isBlocked msg =
        (strContains msg "Unexpected token" || strContains msg "is not valid JSON" ||
          strContains msg "html" || strContains msg "DOCTYPE")) ∧
      (∀ i m, f (1 + i) = .error m → Retry.isBlocked m = true →
        Retry.failPenalty f (1 + i) = 3000) ∧
      (∀ i, i + 1 < (Retry.fetchWithRetry f maxR base).calls →
        (Retry.fetchWithRetry f maxR base).delays[i]? =
          some (base * 2 ^ i + Retry.failPenalty f (1 + i))) ∧
      (∀ g : ℕ → Except String α, (∀ j, (f j).isOk = (g j).isOk) →
        (Retry.fetchWithRetry f maxR base).calls = (Retry.fetchWithRetry g maxR base).calls ∧
          (Retry.fetchWithRetry f maxR base).result.isOk =
            (Retry.fetchWithRetry g maxR base).result.isOk) := by
  refine ⟨fun msg => rfl, ?_, ?_, ?_⟩
  · intro i m hm hb
    simp [Retry.failPenalty, hm, hb]
  · intro i hi
    rw [Retry.fetchWithRetry_delays f maxR base]
    rw [List.getElem?_map]
    rw [List.getElem?_range (by omega)]
    rfl
  · intro g hg
    exact Retry.retryGo_congr_okness f g maxR base hg maxR 1 "" ""

/-- C5 witness: the theorem applied to a thunk whose first failure carries the
DOCTYPE signature — its penalty is exactly 3000 ms. -/
theorem blocked_detection_confirmed_witness :
    Retry.failPenalty (fun _ => (.error "<!DOCTYPE html>" : Except String ℕ)) (1 + 0) = 3000 :=
  (blocked_detection_confirmed (fun _ => (.error "<!DOCTYPE html>" : Except String ℕ)) 3
    5000).2.1 0 "<!DOCTYPE html>" rfl (by decide)

namespace Gate

lemma gateInv_init : GateInv initState :=
  ⟨by decide, by decide, fun _ => rfl, rfl⟩

lemma gateInv_step (s : GateState) (e : GateEvent) (h : GateInv s) :
    GateInv (gateStep s e) := by
  obtain ⟨held, queue, holders, arrived, admitted⟩ := s
  obtain ⟨h1, h2, h3, h4⟩ := h
  simp only at h1 h2 h3 h4
  cases e with
  | arrive i =>
    cases held with
    | true =>
      show holders ≤ 1 ∧ (true = true ↔ holders = 1) ∧ (true = false → queue ++ [i] = []) ∧
        arrived ++ [i] = admitted ++ (queue ++ [i])
      refine ⟨h1, h2, fun hcontra => absurd hcontra (by simp), ?_⟩
      rw [h4, List.append_assoc]
    | false =>
      have hq : queue = [] := h3 rfl
      have h0 : holders = 0 := by
        have hne : ¬(holders = 1) := fun hone => Bool.false_ne_true (h2.mpr hone)
        omega
      subst hq
      subst h0
      show 0 + 1 ≤ 1 ∧ (true = true ↔ 0 + 1 = 1) ∧ (true = false → ([] : List ℕ) = []) ∧
        arrived ++ [i] = (admitted ++ [i]) ++ []
      rw [List.append_nil] at h4
      refine ⟨by omega, by simp, fun _ => rfl, ?_⟩
      rw [List.append_nil, h4]
  | release =>
    cases queue with
    | nil =>
      show holders - 1 ≤ 1 ∧ (false = true ↔ holders - 1 = 1) ∧
        (false = false → ([] : List ℕ) = []) ∧ arrived = admitted ++ []
      have h0 : holders - 1 = 0 := by omega
      refine ⟨by omega, by simp [h0], fun _ => rfl, h4⟩
    | cons next rest =>
      have hh : held = true := by
        cases held with
        | true => rfl
        | false => exact List.noConfusion (h3 rfl)
      subst hh
      show holders ≤ 1 ∧ (true = true ↔ holders = 1) ∧ (true = false → rest = []) ∧
        arrived = (admitted ++ [next]) ++ rest
      refine ⟨h1, h2, fun hcontra => absurd hcontra (by simp), ?_⟩
      rw [h4]
      simp

lemma gateInv_foldl : ∀ (events : List GateEvent) (s : GateState),
    GateInv s → GateInv (events.foldl gateStep s)
  | [], s, h => h
  | e :: rest, s, h => gateInv_foldl rest (gateStep s e) (gateInv_step s e h)

lemma gateInv_run (events : List GateEvent) : GateInv (gateRun events) :=
  gateInv_foldl events initState gateInv_init

end Gate

/-- C6 (amended): the gate admits at most one holder at any instant and admits
waiters in strict FIFO arrival order (the admission history is always a prefix
of the arrival history, with the queue as the remainder); every execution path
of `fetchComplete` outside test mode acquires once and releases exactly once,
with the release last; but releasing an unheld permit is **not** a fail-fast
programming error — on any invariant-satisfying unheld state, `_releaseLock`
is a silent no-op that returns the state unchanged. -/
theorem gate_spec_amended :
    (∀ events : List Gate.GateEvent,
        (Gate.gateRun events).holders ≤ 1 ∧
          (Gate.gateRun events).arrived =
            (Gate.gateRun events).admitted ++ (Gate.gateRun events).queue) ∧
      (∀ (cfg : Connector.FetchCfg) (mock : Connector.TrendsData)
          (seriesThunk : ℕ → Except String (List SeriesPoint))
          (countryThunk : ℕ → Except String (List CountryPoint)) (now : String),
        (Connector.fetchComplete cfg false mock seriesThunk countryThunk now).2.count
            Connector.LockOp.acquire = 1 ∧
          (Connector.fetchComplete cfg false mock seriesThunk countryThunk now).2.count
            Connector.LockOp.release = 1 ∧
          ∃ mid, (Connector.fetchComplete cfg false mock seriesThunk countryThunk now).2 =
            Connector.LockOp.acquire :: mid ++ [Connector.LockOp.release]) ∧
      (∀ s : Gate.GateState, Gate.GateInv s → s.held = false →
        Gate.gateStep s Gate.GateEvent.release = s) := by
  refine ⟨?_, ?_, ?_⟩
  · intro events
    have h := Gate.gateInv_run events
    exact ⟨h.1, h.2.2.2⟩
  · intro cfg mock seriesThunk countryThunk now
    cases hs : (Retry.fetchWithRetry seriesThunk cfg.maxRetries cfg.retryDelay).result with
    | error e =>
      refine ⟨?_, ?_, [], ?_⟩ <;> simp [Connector.fetchComplete, hs]
    | ok ts =>
      cases hc : (Retry.fetchWithRetry countryThunk cfg.maxRetries cfg.retryDelay).result with
      | error e =>
        refine ⟨?_, ?_, [Connector.LockOp.delayMs cfg.requestDelay], ?_⟩ <;>
          simp [Connector.fetchComplete, hs, hc]
      | ok bc =>
        refine ⟨?_, ?_, [Connector.LockOp.delayMs cfg.requestDelay], ?_⟩ <;>
          simp [Connector.fetchComplete, hs, hc]
  · intro s hinv hheld
    have hq : s.queue = [] := hinv.2.2.1 hheld
    have hne : ¬(s.holders = 1) := fun hone => by
      have := hinv.2.1.mpr hone
      rw [hheld] at this
      exact Bool.false_ne_true this
    have h0 : s.holders = 0 := by
      have := hinv.1
      omega
    cases s with
    | mk held queue holders arrived admitted =>
      simp only at hheld hq h0
      subst hheld
      subst hq
      subst h0
      rfl

/-- C6 witness: the amended theorem applied to a concrete unheld state that
satisfies the invariant — the release is a no-op. -/
theorem gate_spec_amended_witness :
    Gate.gateStep ⟨false, [], 0, [3], [3]⟩ Gate.GateEvent.release = ⟨false, [], 0, [3], [3]⟩ :=
  gate_spec_amended.2.2 ⟨false, [], 0, [3], [3]⟩
    ⟨by decide, by decide, fun _ => rfl, by decide⟩ rfl

/-- C6 counterexample: releasing the never-acquired initial permit returns
normally with the state unchanged — `_releaseLock` contains no check and no
throw, so there is no fail-fast error. -/
theorem gate_release_unheld_counterexample :
    Gate.gateStep Gate.initState Gate.GateEvent.release = Gate.initState := rfl

/-- C1 (code_bug evidence): with the fresh cache missed, a stale entry present
(and retrievable through `cache.getStale`, as the first conjunct shows), and
the upstream fetch failing, `executeTrendQuery` marks the query ERROR and
throws the 500 `AppError` — it never consults the stale entry. -/
theorem engine_stale_fallback_missing :
    Engine.cacheGetStale (some ⟨samplePayload, 1000⟩) 201000 =
        some ⟨samplePayload, 200, 1000⟩ ∧
      Engine.executeTrendQuery
          ⟨none, -1, true, .error "Request failed", some ⟨samplePayload, 1000⟩,
            "2026-01-01T00:00:00.000Z", 201000, 21600⟩ sampleParams "req-2" =
        ⟨.error ⟨"Failed to fetch trend data: Request failed", 500⟩,
          [.createRunning, .markError "Request failed"], none⟩ :=
  ⟨rfl, rfl⟩

/-- C7 (amended): on a fresh-cache hit the engine returns the stored payload
with only the `cache` sub-object replaced (`hit = true`,
`ttl_seconds = ` the remaining TTL); no store event and no cache write happen,
and the `request_id` field is returned exactly as stored — it is **not**
overwritten with the current request's id. -/
theorem cache_hit_frame_amended (env : Engine.EngineEnv) (p : Engine.QueryParams)
    (requestId : String) (c : Engine.TrendResponse) (hc : env.cachedFresh = some c) :
    (Engine.executeTrendQuery env p requestId).result =
        .ok { c with cache := ⟨true, env.freshTTL⟩ } ∧
      (Engine.executeTrendQuery env p requestId).storeEvents = [] ∧
      (Engine.executeTrendQuery env p requestId).cacheWrite = none ∧
      ({ c with cache := ⟨true, env.freshTTL⟩ } : Engine.TrendResponse).request_id =
        c.request_id ∧
      ({ c with cache := ⟨true, env.freshTTL⟩ } : Engine.TrendResponse).cache =
        ⟨true, env.freshTTL⟩ ∧
      ({ c with cache := ⟨true, env.freshTTL⟩ } : Engine.TrendResponse).keyword = c.keyword ∧
      ({ c with cache := ⟨true, env.freshTTL⟩ } : Engine.TrendResponse).trend_score =
        c.trend_score ∧
      ({ c with cache := ⟨true, env.freshTTL⟩ } : Engine.TrendResponse).series = c.series ∧
      ({ c with cache := ⟨true, env.freshTTL⟩ } : Engine.TrendResponse).explain = c.explain := by
  refine ⟨?_, ?_, ?_, rfl, rfl, rfl, rfl, rfl, rfl⟩ <;>
    simp [Engine.executeTrendQuery, hc]

/-- C7 witness: the amended theorem applied to a concrete environment whose
fresh cache holds `samplePayload` with 1234 seconds of TTL left. -/
theorem cache_hit_frame_amended_witness :
    (Engine.executeTrendQuery
        ⟨some samplePayload, 1234, true, .error "x", none, "t", 0, 21600⟩
        sampleParams "req-new").result =
      .ok { samplePayload with cache := ⟨true, 1234⟩ } :=
  (cache_hit_frame_amended
    ⟨some samplePayload, 1234, true, .error "x", none, "t", 0, 21600⟩
    sampleParams "req-new" samplePayload rfl).1

/-- C7 counterexample: the cached payload was stored with
`request_id = "req-original"`; replaying the query with request id "req-new"
returns a payload that still carries "req-original", so `request_id` is not
overwritten as claimed. -/
theorem cache_hit_request_id_counterexample :
    (match (Engine.executeTrendQuery
        ⟨some samplePayload, 1234, true, .error "x", none, "t", 0, 21600⟩
        sampleParams "req-new").result with
      | .ok r => r.request_id
      | .error _ => "") = "req-original" ∧ "req-original" ≠ "req-new" :=
  ⟨rfl, by decide⟩

/-- C8 (amended): the series fetch surfaces provider failures unchanged (a
thrown error propagates as-is, and a body without `timelineData` becomes the
"Invalid response format" error), but the country-comparison fetch never
propagates a failure: every outcome — including a thrown provider error —
returns successfully, errors being replaced by the three target countries
with value 0. -/
theorem connector_error_model_amended :
    (∀ e : String, Connector.fetchTimeSeries (.error e) = .error e) ∧
      (Connector.fetchTimeSeries (.ok none) =
        .error "Invalid response format from Google Trends") ∧
      (∀ resp, ∃ pts, Connector.fetchByCountry resp = .ok pts) ∧
      (∀ e : String, Connector.fetchByCountry (.error e) =
        .ok [⟨"MX", 0⟩, ⟨"CR", 0⟩, ⟨"ES", 0⟩]) := by
  refine ⟨fun e => rfl, rfl, ?_, fun e => rfl⟩
  intro resp
  match resp with
  | .error e => exact ⟨_, rfl⟩
  | .ok none => exact ⟨_, rfl⟩
  | .ok (some geo) => exact ⟨_, rfl⟩

/-- C8 counterexample: a timed-out country-comparison call is swallowed by the
connector's catch block and turned into a successful zero-valued comparison,
instead of being propagated as a raw failure. -/
theorem connector_by_country_swallows :
    Connector.fetchByCountry (.error "Request timed out") =
        .ok [⟨"MX", 0⟩, ⟨"CR", 0⟩, ⟨"ES", 0⟩] ∧
      Connector.fetchByCountry (.error "Request timed out") ≠
        .error "Request timed out" :=
  ⟨rfl, fun h => nomatch h⟩

/-- C3 (code_bug evidence): the README documents `baseline_days` in
[30, 1825] with `window_days + baseline_days ≤ 1825` (its own example request
uses 1795), but the schema rejects 1795 — its cap is 730 — while accepting 10,
which is below the documented minimum of 30. -/
theorem validation_baseline_limit_bug :
    Validation.trendQueryAccepts ⟨"bitcoin", "MX", 7, 1795⟩ = false ∧
      Validation.specBaselineAccepted 7 1795 = true ∧
      Validation.trendQueryAccepts ⟨"bitcoin", "MX", 7, 10⟩ = true ∧
      Validation.specBaselineAccepted 7 10 = false :=
  ⟨by decide, by decide, by decide, by decide⟩

/-- C10: `calculateScore` fails with exactly the error "Time series data is
empty" precisely when the input series is null or empty; every non-empty
series produces a result, so the length ≥ 1 precondition is enforced by the
explicit guard at the entry point. -/
theorem scoring_empty_series_error (timeSeries : Option (List SeriesPoint))
    (keyword region : String) :
    Scoring.calculateScore timeSeries keyword region = .error "Time series data is empty" ↔
      (timeSeries = none ∨ timeSeries = some []) := by
  cases timeSeries with
  | none => simp [Scoring.calculateScore]
  | some l =>
    cases l with
    | nil => simp [Scoring.calculateScore]
    | cons a t => simp [Scoring.calculateScore]

end TrendsSpec
